import Mathlib

/-!
Verification of the `newsapi` crate core (src/newsapi/src/lib.rs) of the
news-reader-gui repository: URL construction, response decoding, error
mapping, and the sync/async/free-function fetch paths, shallowly embedded
in Lean 4. Network I/O is embedded by passing the transport's outcome as
an explicit argument; the JSON wire format is embedded as an inductive
tree, and serde's derived decoding is reproduced field by field.
-/

namespace NewsReader

/-- JSON values, as produced by parsing a response body text.
Numbers are tagged with an `Int` payload; their exact value is never
inspected by the decoders below, only their (non-string) shape. -/
inductive Json where
  | null
  | boolean (b : Bool)
  | num (n : Int)
  | str (s : String)
  | arr (xs : List Json)
  | obj (fields : List (String × Json))

/-- A raw response body as text: either it parses as JSON or it does not.
`serde_json::from_str` first parses the text and then decodes the value;
both failure modes are one and the same `serde_json::Error`. -/
inductive Body where
  | invalid
  | json (j : Json)

/-- `Article` (lib.rs lines 40-44): `{ title: String, url: String }`,
with `#[derive(Deserialize)]`. -/
structure Article where
  title : String
  url : String
deriving DecidableEq, Repr

/-- `NewsAPIResponse` (lib.rs lines 26-31):
`{ status: String, articles: Vec<Article>, code: Option<String> }`,
with `#[derive(Deserialize)]`. -/
structure NewsAPIResponse where
  status : String
  articles : List Article
  code : Option String
deriving DecidableEq, Repr

/-- The `NewsAPIError` enum (lib.rs lines 8-24). The wrapped source
errors (`ureq::Error`, `std::io::Error`, `serde_json::Error`,
`url::ParseError`, `reqwest::Error`) carry no information the client
code ever reads back, so they are dropped; `BadRequest` keeps its
`&'static str` reason. -/
inductive NewsAPIError where
  | RequestFailed
  | ResponseToStringFailed
  | ArticlesParsingFailed
  | UrlParseFailed
  | BadRequest (reason : String)
  | AsyncRequestFailed
deriving DecidableEq, Repr

/-- serde decoding of a `String`-typed struct field: only a JSON string
is accepted. -/
def decodeString : Json → Option String
  | .str s => some s
  | _ => none

/-- serde decoding of an `Option<String>`-typed struct field value:
`null` decodes to `None`, a string to `Some`, anything else errors. -/
def decodeOptString : Json → Option (Option String)
  | .null => some none
  | .str s => some (some s)
  | _ => none

/-- The visitor loop of the derived `Deserialize` for `Article`: walk the
object's entries in order, filling each known field at most once
(a duplicate key is an error), ignoring unknown keys; at the end both
`title` and `url` must have been seen. -/
def decodeArticleLoop : List (String × Json) → Option String → Option String → Option Article
  | [], some t, some u => some { title := t, url := u }
  | [], _, _ => none
  | (k, v) :: rest, t, u =>
    if k = "title" then
      match t, decodeString v with
      | none, some s => decodeArticleLoop rest (some s) u
      | _, _ => none
    else if k = "url" then
      match u, decodeString v with
      | none, some s => decodeArticleLoop rest t (some s)
      | _, _ => none
    else decodeArticleLoop rest t u

/-- Derived `Deserialize` for `Article`: a JSON object decoded by the
field loop; any other JSON shape is an error. -/
def decodeArticle : Json → Option Article
  | .obj fields => decodeArticleLoop fields none none
  | _ => none

/-- serde decoding of the `Vec<Article>` field: a JSON array whose every
element decodes as an `Article`. -/
def decodeArticles : Json → Option (List Article)
  | .arr xs => xs.mapM decodeArticle
  | _ => none

/-- The visitor loop of the derived `Deserialize` for `NewsAPIResponse`:
walk the object's entries in order, filling `status`, `articles` and
`code` each at most once, ignoring unknown keys. The accumulator for
`code` is doubly optional: the outer layer records whether the key was
seen at all (serde defaults a missing `Option` field to `None`). -/
def decodeResponseLoop : List (String × Json) → Option String → Option (List Article) →
    Option (Option String) → Option NewsAPIResponse
  | [], some st, some arts, c =>
    some { status := st, articles := arts, code := c.getD none }
  | [], _, _, _ => none
  | (k, v) :: rest, st, arts, c =>
    if k = "status" then
      match st, decodeString v with
      | none, some s => decodeResponseLoop rest (some s) arts c
      | _, _ => none
    else if k = "articles" then
      match arts, decodeArticles v with
      | none, some xs => decodeResponseLoop rest st (some xs) c
      | _, _ => none
    else if k = "code" then
      match c, decodeOptString v with
      | none, some oc => decodeResponseLoop rest st arts (some oc)
      | _, _ => none
    else decodeResponseLoop rest st arts c

/-- Derived `Deserialize` for `NewsAPIResponse`. -/
def decodeResponse : Json → Option NewsAPIResponse
  | .obj fields => decodeResponseLoop fields none none none
  | _ => none

/-- `serde_json::from_str::<NewsAPIResponse>` on a body: text that is not
JSON fails, JSON that does not fit the struct fails, otherwise the
decoded response. -/
def from_str : Body → Option NewsAPIResponse
  | .invalid => none
  | .json j => decodeResponse j

/-- `map_response_err` (lib.rs lines 156-165): the service error code to
domain error lookup table. -/
def map_response_err (code : Option String) : NewsAPIError :=
  match code with
  | some c =>
    match c with
    | "apiKeyDisabled" => NewsAPIError.BadRequest "Your API Key was disabled"
    | _ => NewsAPIError.BadRequest "Unknown error"
  | none => NewsAPIError.BadRequest "Unknown error"

/-- `BASE_URL` (lib.rs line 6). -/
def BASE_URL : String := "https://newsapi.org/v2"

/-- The parsed-URL state used by `prepare_url`, embedding the `url::Url`
type for the hierarchical URLs this crate builds: scheme, host, path
segments and an optional raw query string. `cannotBeABase` marks
non-hierarchical URLs (e.g. `mailto:`), for which the url crate's
`path_segments_mut` refuses to operate. -/
structure Url where
  scheme : String
  host : String
  segments : List String
  query : Option String
  cannotBeABase : Bool
deriving DecidableEq, Repr

/-- `url::Url::parse`, embedded for the inputs this crate can produce: a
nonempty alphabetic scheme before the first `:`; a following `//`
introduces a nonempty host and a `/`-separated path (none of the
program's inputs carries a query or characters needing
percent-encoding); a scheme without `//` yields a cannot-be-a-base URL;
anything else is a parse error. -/
def Url.parse (s : String) : Option Url :=
  match s.data.span (fun c => c != ':') with
  | (schemeCs, rest) =>
    if schemeCs.isEmpty ∨ ¬ schemeCs.all Char.isAlpha then none
    else
      match rest with
      | ':' :: ('/' :: ('/' :: afterSlashes)) =>
        match afterSlashes.span (fun c => c != '/') with
        | (hostCs, pathCs) =>
          if hostCs.isEmpty then none
          else
            let segments :=
              match pathCs with
              | [] => [""]
              | _ :: pathTail => (pathTail.splitOn '/').map (fun cs => String.mk cs)
            some { scheme := String.mk schemeCs, host := String.mk hostCs,
                   segments := segments, query := none, cannotBeABase := false }
      | ':' :: _ =>
        some { scheme := String.mk schemeCs, host := "", segments := [],
               query := none, cannotBeABase := true }
      | _ => none

/-- `url::Url::to_string` for the hierarchical URLs above. -/
def Url.render (u : Url) : String :=
  u.scheme ++ "://" ++ u.host ++ "/" ++ String.intercalate "/" u.segments ++
    (match u.query with
     | none => ""
     | some q => "?" ++ q)

/-- `PathSegmentsMut::push`: append one path segment (never re-split on
`/`; the program's only segment, `top-headlines`, needs no
percent-encoding). -/
def Url.push (u : Url) (seg : String) : Url :=
  { u with segments := u.segments ++ [seg] }

/-- `Url::set_query(Some(q))`: the query is replaced wholesale. -/
def Url.set_query (u : Url) (q : String) : Url :=
  { u with query := some q }

/-- The `EndPoint` enum (lib.rs lines 57-59). -/
inductive EndPoint where
  | TopHeadlines
deriving DecidableEq, Repr

/-- `ToString for EndPoint` (lib.rs lines 61-67). -/
def EndPoint.to_string : EndPoint → String
  | .TopHeadlines => "top-headlines"

/-- The `Country` enum (lib.rs lines 70-72). -/
inductive Country where
  | Us
deriving DecidableEq, Repr

/-- `ToString for Country` (lib.rs lines 74-80). -/
def Country.to_string : Country → String
  | .Us => "us"

/-- The `NewsAPI` facade struct (lib.rs lines 83-88). -/
structure NewsAPI where
  api_key : String
  endpoint : EndPoint
  country : Country
deriving DecidableEq, Repr

/-- `NewsAPI::new` (lib.rs lines 92-98): store the key, default the
endpoint to `TopHeadlines` and the country to `Us`. -/
def NewsAPI.new (api_key : String) : NewsAPI :=
  { api_key := api_key, endpoint := EndPoint.TopHeadlines, country := Country.Us }

/-- The builder setter `NewsAPI::endpoint` (lib.rs lines 101-104): mutate
the endpoint field in place and return the facade (state-passing
embedding of `&mut self -> &mut NewsAPI`). -/
def NewsAPI.set_endpoint (n : NewsAPI) (endpoint : EndPoint) : NewsAPI :=
  { n with endpoint := endpoint }

/-- The builder setter `NewsAPI::country` (lib.rs lines 106-109). -/
def NewsAPI.set_country (n : NewsAPI) (country : Country) : NewsAPI :=
  { n with country := country }

/-- The result of running a piece of Rust code that may panic:
`panicked` embeds an `unwrap` failure, `value` a normal return. -/
inductive RustOutcome (α : Type) where
  | panicked
  | value (a : α)
deriving DecidableEq, Repr

/-- `NewsAPI::prepare_url` (lib.rs lines 111-120): parse `BASE_URL`
(`?` maps a parse error to `UrlParseFailed`), push the endpoint segment
through `path_segments_mut().unwrap()` (which panics on a
cannot-be-a-base URL), set the query to `country=<code>` wholesale, and
render the URL to a string. -/
def NewsAPI.prepare_url (n : NewsAPI) : RustOutcome (Except NewsAPIError String) :=
  match Url.parse BASE_URL with
  | none => RustOutcome.value (Except.error NewsAPIError.UrlParseFailed)
  | some url =>
    if url.cannotBeABase then RustOutcome.panicked
    else
      let url := url.push n.endpoint.to_string
      let country := "country=" ++ n.country.to_string
      let url := url.set_query country
      RustOutcome.value (Except.ok url.render)

/-- The outcome of one HTTP GET, as seen by the caller: the request
itself failed (`ureq::Error` / `reqwest::Error`), the body could not be
read as text, or a body text was obtained. -/
inductive HttpOutcome where
  | callFailed
  | readFailed
  | success (body : Body)

/-- `NewsAPI::fetch` (lib.rs lines 122-130), with the network embedded as
a map from the requested URL to its outcome. `req.call()?` maps a
transport error to `RequestFailed` via `#[from] ureq::Error`;
`into_json()?` returns `std::io::Result`, so BOTH a body-read failure
and a JSON decode failure inside it surface as `std::io::Error`, which
`#[from] std::io::Error` maps to `ResponseToStringFailed`. On a decoded
response, status `"ok"` is success, anything else goes through
`map_response_err` on the response's code. -/
def NewsAPI.fetch (n : NewsAPI) (net : String → HttpOutcome) :
    RustOutcome (Except NewsAPIError NewsAPIResponse) :=
  match n.prepare_url with
  | RustOutcome.panicked => RustOutcome.panicked
  | RustOutcome.value (Except.error e) => RustOutcome.value (Except.error e)
  | RustOutcome.value (Except.ok url) =>
    match net url with
    | HttpOutcome.callFailed =>
      RustOutcome.value (Except.error NewsAPIError.RequestFailed)
    | HttpOutcome.readFailed =>
      RustOutcome.value (Except.error NewsAPIError.ResponseToStringFailed)
    | HttpOutcome.success body =>
      match from_str body with
      | none => RustOutcome.value (Except.error NewsAPIError.ResponseToStringFailed)
      | some response =>
        if response.status = "ok" then RustOutcome.value (Except.ok response)
        else RustOutcome.value (Except.error (map_response_err response.code))

/-- `NewsAPI::fetch_async` (lib.rs lines 132-152): same pipeline, but
every reqwest failure (request build, send, body/JSON read) is mapped to
`AsyncRequestFailed`; the status gate and error mapper are identical to
the synchronous path. -/
def NewsAPI.fetch_async (n : NewsAPI) (net : String → HttpOutcome) :
    RustOutcome (Except NewsAPIError NewsAPIResponse) :=
  match n.prepare_url with
  | RustOutcome.panicked => RustOutcome.panicked
  | RustOutcome.value (Except.error e) => RustOutcome.value (Except.error e)
  | RustOutcome.value (Except.ok url) =>
    match net url with
    | HttpOutcome.callFailed =>
      RustOutcome.value (Except.error NewsAPIError.AsyncRequestFailed)
    | HttpOutcome.readFailed =>
      RustOutcome.value (Except.error NewsAPIError.AsyncRequestFailed)
    | HttpOutcome.success body =>
      match from_str body with
      | none => RustOutcome.value (Except.error NewsAPIError.AsyncRequestFailed)
      | some response =>
        if response.status = "ok" then RustOutcome.value (Except.ok response)
        else RustOutcome.value (Except.error (map_response_err response.code))

/-- The free function `get_articles` (lib.rs lines 167-176): GET the
given URL (`RequestFailed` on transport error), read the body text
(`ResponseToStringFailed` on read error), decode it with
`serde_json::from_str` (`ArticlesParsingFailed` on decode error), and
return the decoded response with no status inspection at all. -/
def get_articles (url : String) (net : String → HttpOutcome) :
    Except NewsAPIError NewsAPIResponse :=
  match net url with
  | HttpOutcome.callFailed => Except.error NewsAPIError.RequestFailed
  | HttpOutcome.readFailed => Except.error NewsAPIError.ResponseToStringFailed
  | HttpOutcome.success body =>
    match from_str body with
    | none => Except.error NewsAPIError.ArticlesParsingFailed
    | some articles => Except.ok articles

/-- Modelled from the spec: the repository defines no encoder for
`Article`, so the wire shape of section 6 of the specification
(`{ "title": string, "url": string }`) is used. -/
def encodeArticle (a : Article) : Json :=
  Json.obj [("title", Json.str a.title), ("url", Json.str a.url)]

/-- Modelled from the spec: the repository defines no encoder for
`NewsAPIResponse`, so the wire shape of section 6 of the specification
(`{ "status": string, "articles": [...], "code": string|null }`) is
used. -/
def encodeResponse (r : NewsAPIResponse) : Json :=
  Json.obj [("status", Json.str r.status),
            ("articles", Json.arr (r.articles.map encodeArticle)),
            ("code", match r.code with
                     | none => Json.null
                     | some c => Json.str c)]

/-- C2: for Endpoint=TopHeadlines and CountryCode=US (and any api_key),
`prepare_url` returns exactly the string
`https://newsapi.org/v2/top-headlines?country=us` — a deterministic,
pure function of (base, endpoint, country). -/
theorem prepare_url_top_headlines_us (k : String) :
    (NewsAPI.mk k EndPoint.TopHeadlines Country.Us).prepare_url =
      RustOutcome.value (Except.ok "https://newsapi.org/v2/top-headlines?country=us") :=
  rfl

/-- C3: `map_response_err` maps `some "apiKeyDisabled"` to
`BadRequest "Your API Key was disabled"`, and every other code as well
as `none` to `BadRequest "Unknown error"`. -/
theorem map_response_err_table (c : Option String) :
    map_response_err c =
      if c = some "apiKeyDisabled" then NewsAPIError.BadRequest "Your API Key was disabled"
      else NewsAPIError.BadRequest "Unknown error" := by
  cases c with
  | none => simp [map_response_err]
  | some s =>
    by_cases h : s = "apiKeyDisabled"
    · subst h; simp [map_response_err]
    · simp [map_response_err, h]

/-- C4: the error mapper is total: for every possible code input (`none`
or any string), it returns a `BadRequest` carrying a non-empty reason
string, never any other error kind. -/
theorem map_response_err_total (c : Option String) :
    ∃ r, map_response_err c = NewsAPIError.BadRequest r ∧ r ≠ "" := by
  cases c with
  | none => exact ⟨"Unknown error", rfl, by decide⟩
  | some s =>
    by_cases h : s = "apiKeyDisabled"
    · subst h; exact ⟨"Your API Key was disabled", rfl, by decide⟩
    · refine ⟨"Unknown error", ?_, by decide⟩
      simp [map_response_err, h]

/-- C1: whenever the body decodes to a response whose status is `"ok"`,
`NewsAPI::fetch` returns that response unchanged as success, whatever
the code field holds — the code is never inspected on this path. -/
theorem fetch_ok_status_ignores_code (n : NewsAPI) (net : String → HttpOutcome)
    (url : String) (b : Body) (r : NewsAPIResponse)
    (hu : n.prepare_url = RustOutcome.value (Except.ok url))
    (hn : net url = HttpOutcome.success b)
    (hd : from_str b = some r)
    (hs : r.status = "ok") :
    n.fetch net = RustOutcome.value (Except.ok r) := by
  simp [NewsAPI.fetch, hu, hn, hd, hs]

/-- C1 witness: a server answering status `"ok"` together with a
non-empty code `"rateLimited"` still fetches successfully, code kept but
ignored. -/
theorem fetch_ok_status_ignores_code_witness :
    (NewsAPI.new "key").fetch
        (fun _ => HttpOutcome.success (Body.json (Json.obj
          [("status", Json.str "ok"), ("articles", Json.arr []),
           ("code", Json.str "rateLimited")]))) =
      RustOutcome.value (Except.ok
        { status := "ok", articles := [], code := some "rateLimited" }) :=
  fetch_ok_status_ignores_code (NewsAPI.new "key")
    (fun _ => HttpOutcome.success (Body.json (Json.obj
      [("status", Json.str "ok"), ("articles", Json.arr []),
       ("code", Json.str "rateLimited")])))
    "https://newsapi.org/v2/top-headlines?country=us"
    (Body.json (Json.obj
      [("status", Json.str "ok"), ("articles", Json.arr []),
       ("code", Json.str "rateLimited")]))
    { status := "ok", articles := [], code := some "rateLimited" }
    rfl rfl rfl rfl

/-- C5 counterexample: a body missing the `articles` field makes
`NewsAPI::fetch` fail with `ResponseToStringFailed`, NOT with
`ArticlesParsingFailed` as the claim states for this path: ureq's
`into_json` returns `std::io::Result`, so its decode error arrives as an
`io::Error` and the `#[from] std::io::Error` conversion picks the
`ResponseToStringFailed` variant. -/
theorem fetch_decode_failure_counterexample :
    (NewsAPI.new "key").fetch
        (fun _ => HttpOutcome.success (Body.json (Json.obj [("status", Json.str "ok")]))) =
      RustOutcome.value (Except.error NewsAPIError.ResponseToStringFailed) ∧
    NewsAPIError.ResponseToStringFailed ≠ NewsAPIError.ArticlesParsingFailed :=
  ⟨rfl, by decide⟩

/-- C5 amended: every undecodable body fails loudly on both paths —
`get_articles` with `ArticlesParsingFailed`, `NewsAPI::fetch` with
`ResponseToStringFailed` (ureq's `into_json` wraps decode errors in
`io::Error`); neither path ever yields a silent empty article list. -/
theorem fetch_decode_failure (n : NewsAPI) (net : String → HttpOutcome)
    (url : String) (b : Body)
    (hu : n.prepare_url = RustOutcome.value (Except.ok url))
    (hn : net url = HttpOutcome.success b)
    (hd : from_str b = none) :
    get_articles url net = Except.error NewsAPIError.ArticlesParsingFailed ∧
    n.fetch net = RustOutcome.value (Except.error NewsAPIError.ResponseToStringFailed) := by
  constructor
  · simp [get_articles, hn, hd]
  · simp [NewsAPI.fetch, hu, hn, hd]

/-- C5 witness: the amended statement at the body missing `articles`. -/
theorem fetch_decode_failure_witness :
    get_articles "https://newsapi.org/v2/top-headlines?country=us"
        (fun _ => HttpOutcome.success (Body.json (Json.obj [("status", Json.str "ok")]))) =
      Except.error NewsAPIError.ArticlesParsingFailed ∧
    (NewsAPI.new "key").fetch
        (fun _ => HttpOutcome.success (Body.json (Json.obj [("status", Json.str "ok")]))) =
      RustOutcome.value (Except.error NewsAPIError.ResponseToStringFailed) :=
  fetch_decode_failure (NewsAPI.new "key")
    (fun _ => HttpOutcome.success (Body.json (Json.obj [("status", Json.str "ok")])))
    "https://newsapi.org/v2/top-headlines?country=us"
    (Body.json (Json.obj [("status", Json.str "ok")]))
    rfl rfl rfl

/-- C6: `get_articles` is transport + decoder only: any body that
decodes is returned as success with no status inspection, even when the
status is not `"ok"`; on the same body the facade paths `fetch` and
`fetch_async` both run the error mapper on the code. -/
theorem get_articles_bypasses_status (n : NewsAPI) (net : String → HttpOutcome)
    (url : String) (b : Body) (r : NewsAPIResponse)
    (hu : n.prepare_url = RustOutcome.value (Except.ok url))
    (hn : net url = HttpOutcome.success b)
    (hd : from_str b = some r)
    (hs : r.status ≠ "ok") :
    get_articles url net = Except.ok r ∧
    n.fetch net = RustOutcome.value (Except.error (map_response_err r.code)) ∧
    n.fetch_async net = RustOutcome.value (Except.error (map_response_err r.code)) := by
  refine ⟨?_, ?_, ?_⟩
  · simp [get_articles, hn, hd]
  · simp [NewsAPI.fetch, hu, hn, hd, hs]
  · simp [NewsAPI.fetch_async, hu, hn, hd, hs]

/-- C6 witness: a decodable body with status `"error"` and no code comes
back as plain success from `get_articles`, while `fetch` and
`fetch_async` both turn it into the mapped `BadRequest`. -/
theorem get_articles_bypasses_status_witness :
    get_articles "https://newsapi.org/v2/top-headlines?country=us"
        (fun _ => HttpOutcome.success (Body.json (Json.obj
          [("status", Json.str "error"), ("articles", Json.arr []), ("code", Json.null)]))) =
      Except.ok { status := "error", articles := [], code := none } ∧
    (NewsAPI.new "key").fetch
        (fun _ => HttpOutcome.success (Body.json (Json.obj
          [("status", Json.str "error"), ("articles", Json.arr []), ("code", Json.null)]))) =
      RustOutcome.value (Except.error (map_response_err none)) ∧
    (NewsAPI.new "key").fetch_async
        (fun _ => HttpOutcome.success (Body.json (Json.obj
          [("status", Json.str "error"), ("articles", Json.arr []), ("code", Json.null)]))) =
      RustOutcome.value (Except.error (map_response_err none)) :=
  get_articles_bypasses_status (NewsAPI.new "key")
    (fun _ => HttpOutcome.success (Body.json (Json.obj
      [("status", Json.str "error"), ("articles", Json.arr []), ("code", Json.null)])))
    "https://newsapi.org/v2/top-headlines?country=us"
    (Body.json (Json.obj
      [("status", Json.str "error"), ("articles", Json.arr []), ("code", Json.null)]))
    { status := "error", articles := [], code := none }
    rfl rfl rfl (by decide)

/-- C7: encoding the response with status `"ok"`, one article
`{title: t, url: u}` and no code to the wire shape and decoding it back
yields the same status and the same article list. -/
theorem decode_encode_roundtrip :
    decodeResponse (encodeResponse
        { status := "ok", articles := [{ title := "t", url := "u" }], code := none }) =
      some { status := "ok", articles := [{ title := "t", url := "u" }], code := none } :=
  rfl

/-- C8: the builder setter for the endpoint changes only the endpoint
field and the one for the country only the country field; each returns
the updated facade itself, which is what chaining consumes. -/
theorem setters_touch_only_their_field (n : NewsAPI) (e : EndPoint) (c : Country) :
    (n.set_endpoint e).api_key = n.api_key ∧
    (n.set_endpoint e).country = n.country ∧
    (n.set_endpoint e).endpoint = e ∧
    (n.set_country c).api_key = n.api_key ∧
    (n.set_country c).endpoint = n.endpoint ∧
    (n.set_country c).country = c :=
  ⟨rfl, rfl, rfl, rfl, rfl, rfl⟩

/-- C9: `prepare_url` never fails and never panics: the fixed
`BASE_URL` constant parses as a hierarchical (base-able) URL, so the
`UrlParseFailed` branch and the `path_segments_mut().unwrap()` panic are
unreachable for every facade state. -/
theorem prepare_url_never_fails (n : NewsAPI) :
    (∃ u, Url.parse BASE_URL = some u ∧ u.cannotBeABase = false) ∧
    ∃ s, n.prepare_url = RustOutcome.value (Except.ok s) := by
  obtain ⟨k, e, c⟩ := n
  cases e
  cases c
  exact ⟨⟨_, rfl, rfl⟩, _, rfl⟩

/-- C10: `NewsAPI::new` stores the given api_key verbatim and defaults
the endpoint to TopHeadlines and the country to Us, so a fetch right
after construction targets `top-headlines?country=us`. -/
theorem new_stores_key_and_defaults (k : String) :
    (NewsAPI.new k).api_key = k ∧
    (NewsAPI.new k).endpoint = EndPoint.TopHeadlines ∧
    (NewsAPI.new k).country = Country.Us ∧
    (NewsAPI.new k).prepare_url =
      RustOutcome.value (Except.ok "https://newsapi.org/v2/top-headlines?country=us") :=
  ⟨rfl, rfl, rfl, rfl⟩

end NewsReader
